import Mathlib

/-!
Shallow embedding of the lease-based lock manager, the download orchestration
loop and the backend-resolution layer of the model downloader
(`src/python/downloader/` and its near-duplicate revisions under
`src/python/matrixinfer/downloader/` and `src/python/kthena/downloader/`).

Time is modelled in whole seconds as `Int` (the Python code compares
`time.time() - mtime < timeout` on floats; only the ordering matters for the
properties below).  Filesystem and network effects are modelled as explicit
state and as injected outcomes (`Except`/`Bool` parameters), so every
definition is executable.
-/

namespace Kthena

/-! ## Lock manager state (`src/python/downloader/lock.py`, class `LockManager`) -/

/-- In-process state of one `LockManager` instance.  `lock_file_open` models
`self._lock_file is not None`, `renew_thread` models a live renewal thread,
`stop_renew_event` models the `threading.Event`. -/
structure LMState where
  lock_path : String
  timeout : Int
  renew_interval : Int
  stop_renew_event : Bool
  lock_file_open : Bool
  is_locked : Bool
  renew_thread : Bool
deriving Repr, DecidableEq

/-- `LockManager.__init__(lock_path, timeout=600)`: stores the path and the
timeout and fixes `renew_interval = 300`. -/
def LockManager.init (lock_path : String) (timeout : Int := 600) : LMState :=
  { lock_path := lock_path
    timeout := timeout
    renew_interval := 300
    stop_renew_event := false
    lock_file_open := false
    is_locked := false
    renew_thread := false }

/-- The slice of the filesystem a single lock path touches: whether the lock
directory and the lock file exist, the file's mtime and its text content. -/
structure LockFS where
  dirExists : Bool
  lockExists : Bool
  mtime : Int
  content : String
deriving Repr, DecidableEq

/-- The I/O operations executed by `try_acquire`, in program order.  An
injected failure at a step models that OS call raising. -/
inductive AcqStep
  | makedirs
  | getmtime
  | openFile
  | chmod
  | flock
  | writePid
  | utime
deriving Repr, DecidableEq

/-- Result of `try_acquire`: the returned boolean, whether an exception was
raised (and caught) on the way, and the post states.  The function is total:
the Python method catches every exception internally. -/
structure AcqResult where
  acquired : Bool
  raised : Bool
  st : LMState
  fs : LockFS
deriving Repr, DecidableEq

/-- `LockManager._cleanup`: closes and clears the file handle and resets the
held flag. -/
def cleanup (st : LMState) : LMState :=
  { st with lock_file_open := false, is_locked := false }

/-- `LockManager.try_acquire`, with an injected failure oracle `fails` for the
seven I/O calls it performs.  Mirrors the source line by line:
early-return `True` when already locked; `os.makedirs`; the
exists-and-not-expired check (`time.time() - mtime < self.timeout`);
`open(.., "w")` (creates/truncates the file); `os.chmod`; `fcntl.flock`;
writing `f"<pid>\n"` and flushing; `os.utime` (mtime := now); then setting
the held flag and starting the renewal thread (which first clears the stop
event).  Any failure is caught: `_cleanup()` runs and `False` is returned. -/
def tryAcquire (st : LMState) (fs : LockFS) (now : Int) (pid : Nat)
    (fails : AcqStep → Bool) : AcqResult :=
  if st.is_locked then ⟨true, false, st, fs⟩
  else if fails .makedirs then ⟨false, true, cleanup st, fs⟩
  else
    let fs1 : LockFS := { fs with dirExists := true }
    if fs1.lockExists && fails .getmtime then ⟨false, true, cleanup st, fs1⟩
    else if fs1.lockExists && decide (now - fs1.mtime < st.timeout) then
      ⟨false, false, st, fs1⟩
    else if fails .openFile then ⟨false, true, cleanup st, fs1⟩
    else
      let fs2 : LockFS := { fs1 with lockExists := true, mtime := now, content := "" }
      let st2 : LMState := { st with lock_file_open := true }
      if fails .chmod then ⟨false, true, cleanup st2, fs2⟩
      else if fails .flock then ⟨false, true, cleanup st2, fs2⟩
      else if fails .writePid then ⟨false, true, cleanup st2, fs2⟩
      else
        let fs3 : LockFS := { fs2 with content := toString pid ++ "\n" }
        if fails .utime then ⟨false, true, cleanup st2, fs3⟩
        else
          let fs4 : LockFS := { fs3 with mtime := now }
          ⟨true, false,
            { st2 with
                is_locked := true
                stop_renew_event := false
                renew_thread := true },
            fs4⟩

/-- A failure oracle under which no I/O call fails. -/
def noFail : AcqStep → Bool := fun _ => false

/-- `LockManager.stop_renew`: sets the stop event and joins the renewal
thread with a bounded (1 second) wait. -/
def stopRenewFn (st : LMState) : LMState :=
  { st with stop_renew_event := true, renew_thread := false }

/-- The lock-manager calls `release` performs, in program order. -/
inductive RelAction
  | stopRenew
  | unflock
  | closeFile
  | removeFile
deriving Repr, DecidableEq

/-- `LockManager.release`: returns immediately when not held; otherwise stops
the renewal task first, then (when a file handle is open) releases the
advisory lock, closes the handle, removes the lock file only if it still
exists (tolerating it being gone), and finally runs `_cleanup`.  The returned
list records the performed actions in order. -/
def release (st : LMState) (fs : LockFS) : LMState × LockFS × List RelAction :=
  if st.is_locked = false then (st, fs, [])
  else
    let st1 := stopRenewFn st
    if st1.lock_file_open then
      if fs.lockExists then
        (cleanup st1, { fs with lockExists := false },
          [.stopRenew, .unflock, .closeFile, .removeFile])
      else
        (cleanup st1, fs, [.stopRenew, .unflock, .closeFile])
    else
      (st1, fs, [.stopRenew])

/-! ## Download orchestrator (`src/python/downloader/base.py`,
`ModelDownloader.download_model`) -/

/-- Observable lock-manager and backend calls made by one run of the
orchestration loop, in order.  `releaseNoop` is the outer exception handler's
second `release()` call, which returns immediately because the lock was
already released by the inner `finally`. -/
inductive DlEvent
  | acquireFailed
  | waited (secs : Nat)
  | acquired
  | downloadCalled
  | released
  | releaseNoop
deriving Repr, DecidableEq

/-- One iteration body plus the `while True` loop of
`ModelDownloader.download_model`, fuelled to stay total.  `acq i` is the
outcome of the `i`-th `try_acquire` call, `dl` the outcome of the backend's
`download` (invoked at most once per run, since the loop exits by `break` on
success and by `raise` on failure).  On a failed acquire the loop waits on
`stop_event` for 60 seconds and retries.  On success: `download`, then the
inner `finally` releases the lease; an exception then reaches the outer
handler which calls `release()` again (a no-op) and re-raises the same
exception.  `none` means the fuel ran out with the lock still held
elsewhere. -/
def downloadModelLoop (acq : Nat → Bool) (dl : Except String Unit) :
    Nat → Nat → List DlEvent × Option (Except String Unit)
  | 0, _ => ([], none)
  | fuel + 1, i =>
    if acq i then
      match dl with
      | .ok _ => ([.acquired, .downloadCalled, .released], some (.ok ()))
      | .error e =>
          ([.acquired, .downloadCalled, .released, .releaseNoop], some (.error e))
    else
      let rest := downloadModelLoop acq dl fuel (i + 1)
      (.acquireFailed :: .waited 60 :: rest.1, rest.2)

/-- `ModelDownloader.download_model` starts the loop at attempt `0`. -/
def downloadModel (acq : Nat → Bool) (dl : Except String Unit) (fuel : Nat) :
    List DlEvent × Option (Except String Unit) :=
  downloadModelLoop acq dl fuel 0

/-- The lock timeout the orchestrator passes:
`LockManager(lock_path, timeout=600)` in `src/python/downloader/base.py`. -/
def downloaderLockTimeout : Int := 600

/-- The lock timeout the matrixinfer revision of the orchestrator passes:
`LockManager(lock_path, timeout=15)` in
`src/python/matrixinfer/downloader/base.py`. -/
def matrixinferLockTimeout : Int := 15

/-! ## S3 downloader (`src/python/downloader/s3.py`, class `S3Downloader`) -/

/-- Exceptions a storage call can raise: `botocore` `ClientError` (with error
code and message) or any other exception. -/
inductive S3Err
  | clientError (code msg : String)
  | other (msg : String)
deriving Repr, DecidableEq

/-- One entry of an S3 listing page: key, size and ETag. -/
structure S3Object where
  key : String
  size : Nat
  etag : String
deriving Repr, DecidableEq

/-- The local view of one destination file: its size and the quoted MD5 hex
digest `_calculate_file_md5` would produce for its content
(`f'"<hexdigest>"'`).  The digest itself is abstract: MD5 is not re-modelled,
only the string comparison the code performs on it. -/
structure LocalFile where
  size : Nat
  md5 : String
deriving Repr, DecidableEq

/-! `S3Downloader._is_etag_match(local_md5, etag)`:

```python
if "-" in etag:
    match = re.match(r'"([^"]+)-(\d+)"', etag)
    if match:
        return True
return local_md5 == etag
```

`re.match` of that pattern succeeds iff the string starts with `"`, then some
non-empty run of non-quote characters, a `-`, a non-empty run of digits and a
`"` (anything may follow: `re.match` anchors only the start).  The matcher
below implements exactly that backtracking search. -/

/-- After the candidate `-` separator: one or more digits followed by `"`. -/
def digitsQuote : List Char → Bool
  | [] => false
  | c :: rest =>
    if c.isDigit then
      match rest with
      | [] => false
      | d :: rest2 => if d = '\"' then true else digitsQuote (d :: rest2)
    else false

/-- Scans the `[^"]+` group, having already consumed at least one character:
at each `-` either close the group here (needing digits and a quote next) or
keep the `-` inside the group. -/
def sCont : List Char → Bool
  | [] => false
  | c :: rest =>
    if c = '\"' then false
    else if c = '-' && digitsQuote rest then true
    else sCont rest

/-- `re.match(r'"([^"]+)-(\d+)"', etag)` succeeds.  The first character after
the opening quote is the group's mandatory first character; the separator `-`
can only come after it. -/
def isMultipartEtag (etag : String) : Bool :=
  match etag.toList with
  | '\"' :: c :: rest => if c = '\"' then false else sCont rest
  | _ => false

/-- `S3Downloader._is_etag_match`. -/
def isEtagMatch (localMd5 etag : String) : Bool :=
  if etag.toList.contains '-' && isMultipartEtag etag then true
  else localMd5 == etag

/-- What happened to one listed object. -/
inductive ObjAction
  | skipped
  | downloaded
  | clientFailed
deriving Repr, DecidableEq

/-- `S3Downloader._download_object(bucket, key, output_path, size, etag)` with
the target's local state `local` and the outcome `fetch` of
`client.download_file`.  Skips when a local file exists with equal size and a
matching ETag; otherwise attempts the transfer; a `ClientError` there is
caught, logged and turned into `return False`; any other exception
propagates. -/
def downloadObject (loc : Option LocalFile) (size : Nat) (etag : String)
    (fetch : Except S3Err Unit) : Except String ObjAction :=
  match loc with
  | some f =>
    if f.size = size && isEtagMatch f.md5 etag then .ok .skipped
    else downloadObjectFetch fetch
  | none => downloadObjectFetch fetch
where
  /-- The `try: client.download_file .. except ClientError` tail. -/
  downloadObjectFetch : Except S3Err Unit → Except String ObjAction
    | .ok _ => .ok .downloaded
    | .error (.clientError _ _) => .ok .clientFailed
    | .error (.other m) => .error m

/-! ## Path helpers (`str`/`posixpath` functions the downloader relies on,
re-implemented structurally over `List Char` so the kernel can evaluate
them) -/

/-- `str.lstrip("/")`. -/
def stripLeadingSlashes (s : String) : String :=
  String.mk (s.toList.dropWhile (fun c => c = '/'))

/-- `str.startswith(p)`. -/
def strStartsWith (s p : String) : Bool :=
  p.toList.isPrefixOf s.toList

/-- `str.endswith("/")`. -/
def strEndsWithSlash (s : String) : Bool :=
  s.toList.getLast? == some '/'

/-- `str.split("/")`, as character lists. -/
def splitOnSlash : List Char → List (List Char)
  | [] => [[]]
  | c :: rest =>
    if c = '/' then [] :: splitOnSlash rest
    else
      match splitOnSlash rest with
      | [] => [[c]]
      | comp :: comps => (c :: comp) :: comps

/-- `"/".join(comps)`. -/
def joinSlashStr : List String → String
  | [] => ""
  | [c] => c
  | c :: cs => c ++ "/" ++ joinSlashStr cs

/-- One step of `posixpath.normpath`'s component loop.  Empty and `.`
components are dropped; `..` pops the previous component except at the root
of an absolute path or when it cannot be resolved in a relative path. -/
def normStep (isAbs : Bool) (acc : List String) (comp : String) : List String :=
  if comp = "" || comp = "." then acc
  else if comp ≠ ".." || (!isAbs && acc = []) || acc.getLast? = some ".." then
    acc ++ [comp]
  else if acc ≠ [] then acc.dropLast
  else acc

/-- `posixpath.normpath(path)`. -/
def normpathPosix (path : String) : String :=
  if path = "" then "."
  else
    let cs := path.toList
    let isAbs := cs.take 1 == ['/']
    let dbl := cs.take 2 == ['/', '/'] && !(cs.take 3 == ['/', '/', '/'])
    let comps := ((splitOnSlash cs).map String.mk).foldl (normStep isAbs) []
    let joined := joinSlashStr comps
    let res := (if isAbs then (if dbl then "//" else "/") else "") ++ joined
    if res = "" then "." else res

/-- Split a relative path into its non-empty components, as
`[x for x in path.split(sep) if x]` does inside `posixpath.relpath`. -/
def pathComponents (s : String) : List String :=
  ((splitOnSlash s.toList).map String.mk).filter (fun c => c ≠ "")

/-- Length of the common prefix of two component lists. -/
def commonLen : List String → List String → Nat
  | a :: as_, b :: bs => if a = b then commonLen as_ bs + 1 else 0
  | _, _ => 0

/-- `posixpath.relpath(path, start)` for two relative paths.  (`relpath`
first applies `abspath` to both arguments; the working-directory components
that adds are common to both lists and cancel in the common-prefix step, so
they are left out of the model.) -/
def relpathPy (path start : String) : String :=
  let pl := pathComponents path
  let sl := pathComponents start
  let i := commonLen sl pl
  let rel := List.replicate (sl.length - i) ".." ++ pl.drop i
  if rel = [] then "." else joinSlashStr rel

/-- `os.path.join(a, b)` for a relative `b`. -/
def joinPath (a b : String) : String := a ++ "/" ++ b

/-- Splits a character list at the first occurrence of `://`, returning the
parts before and after it, or `none` when there is no `://`. -/
def splitAtScheme : List Char → Option (List Char × List Char)
  | ':' :: '/' :: '/' :: rest => some ([], rest)
  | c :: rest =>
    match splitAtScheme rest with
    | some (pre, post) => some (c :: pre, post)
    | none => none
  | [] => none

/-- `parse_bucket_from_model_url(url, scheme)` (`src/python/downloader/base.py`):
`urlparse` puts everything between `://` and the next `/` in `netloc` and the
rest in `path`; the function then strips the path's leading slashes.  A URL
without `://` has an empty netloc and is all path.  (Query/fragment
splitting, which `urlparse` would also perform, is not modelled; the claims
only concern plain `scheme://bucket/path` sources.) -/
def parseBucketFromModelUrl (url : String) : String × String :=
  match splitAtScheme url.toList with
  | none => ("", stripLeadingSlashes url)
  | some (_, after) =>
    let netloc := String.mk (after.takeWhile (fun c => c ≠ '/'))
    let path := String.mk (after.dropWhile (fun c => c ≠ '/'))
    (netloc, stripLeadingSlashes path)


/-! ## S3 job-level download (`S3Downloader.download`) -/

/-- Python truthiness test `not self.access_key` for an optional credential:
`None` and the empty string are falsy. -/
def credFalsy : Option String → Bool
  | none => true
  | some s => s = ""

/-- Target path of one listed key:
`os.path.join(output_dir, os.path.relpath(key, bucket_path))`, with the bare
key when the prefix is empty. -/
def objTarget (outputDir pfx key : String) : String :=
  joinPath outputDir (if pfx = "" then key else relpathPy key pfx)

/-- The per-object loop of `S3Downloader.download`: keys ending in `/` are
passed over; every other key is fetched into its target path via
`_download_object`.  A non-`ClientError` exception aborts the iteration and
propagates. -/
def s3DownloadLoop (outputDir pfx : String) (loc : String → Option LocalFile)
    (fetch : String → Except S3Err Unit) :
    List S3Object → Except String (List (String × ObjAction))
  | [] => .ok []
  | obj :: rest =>
    if strEndsWithSlash obj.key then s3DownloadLoop outputDir pfx loc fetch rest
    else
      let path := objTarget outputDir pfx obj.key
      match downloadObject (loc path) obj.size obj.etag (fetch obj.key) with
      | .error m => .error m
      | .ok act =>
        match s3DownloadLoop outputDir pfx loc fetch rest with
        | .error m => .error m
        | .ok acts => .ok ((path, act) :: acts)

/-- `S3Downloader.download(output_dir)`.  Missing credentials return silently.
`listing` is the flattened outcome of paginating `list_objects_v2` (a page
without `Contents` contributes nothing).  The surrounding
`except ClientError` swallows storage-client errors — the method then returns
normally — while the final `except Exception` re-raises anything else
unchanged. -/
def s3Download (access_key secret_key : Option String) (model_uri : String)
    (outputDir : String) (listing : Except S3Err (List S3Object))
    (loc : String → Option LocalFile) (fetch : String → Except S3Err Unit) :
    Except String (List (String × ObjAction)) :=
  if credFalsy access_key || credFalsy secret_key then .ok []
  else
    let bp := parseBucketFromModelUrl model_uri
    match listing with
    | .error (.clientError _ _) => .ok []
    | .error (.other m) => .error m
    | .ok objs => s3DownloadLoop outputDir bp.2 loc fetch objs

/-! ## Backend resolver (`get_downloader`, `src/python/downloader/base.py`) -/

/-- The credential/config bag handed to `get_downloader`. -/
structure DlConfig where
  access_key : Option String
  secret_key : Option String
  region_name : Option String
  obs_endpoint : Option String
  hf_token : Option String
  hf_endpoint : Option String
  hf_revision : Option String
deriving Repr, DecidableEq

/-- The constructed downloader variant, carrying what the corresponding
constructor stores.  `pvcDl` carries `self.pvc_mount_point`, which the flat
`PVCDownloader.__init__` fixes to `"/mnt/pvc"` (it receives no source). -/
inductive Variant
  | pvcDl (mount_point : String)
  | obsDl (model_uri : String) (access_key secret_key obs_endpoint : Option String)
  | hfDl (model_uri : String) (hf_token hf_endpoint hf_revision : Option String)
deriving Repr, DecidableEq

/-- `get_downloader(url, config)`: dispatch on the scheme prefix of `url`;
anything unrecognized falls through to the HuggingFace variant with the whole
string as the repository reference.  The `s3://` branch calls
`S3Downloader(model_uri=url, access_key=.., secret_key=..,
region_name=config.get("region_name"))`, but `S3Downloader.__init__`
(`src/python/downloader/s3.py`) takes `(model_uri, access_key, secret_key,
endpoint, max_workers, chunk_size)` — it has no `region_name` parameter and
no `**kwargs` — so the constructor call raises `TypeError`, and the
surrounding handler catches only `ImportError`: every `s3://` resolution
propagates that `TypeError`. -/
def getDownloader (url : String) (config : DlConfig) : Except String Variant :=
  if strStartsWith url "s3://" then
    .error "TypeError: unexpected keyword argument region_name"
  else if strStartsWith url "pvc://" then
    .ok (.pvcDl "/mnt/pvc")
  else if strStartsWith url "obs://" then
    .ok (.obsDl url config.access_key config.secret_key config.obs_endpoint)
  else
    .ok (.hfDl url config.hf_token config.hf_endpoint config.hf_revision)

/-- Flat `PVCDownloader._parse_pvc_path` (`src/python/downloader/pvc.py`):
`os.path.normpath(self.pvc_mount_point)` — the source URI plays no part. -/
def flatParsePvcPath (mount_point : String) : String :=
  normpathPosix mount_point

/-- Kthena `PVCDownloader._parse_pvc_path`
(`src/python/kthena/downloader/pvc.py`): strips the 6-character `pvc://`
prefix, rejects an empty remainder, forces a leading slash and normalizes. -/
def kthenaParsePvcPath (source_path : String) : Except String String :=
  let path := String.mk (source_path.toList.drop 6)
  if path = "" then .error "No path specified in PVC URI"
  else
    let path1 := if strStartsWith path "/" then path else "/" ++ path
    .ok (normpathPosix path1)

/-! ## PVC copy (`_copy_from_pvc` in both revisions) -/

/-- Flat `PVCDownloader._copy_from_pvc` (`src/python/downloader/pvc.py`):
raises `FileNotFoundError` unless the source exists and is a directory, then
runs `rsync` through `subprocess.run(..., check=False, capture_output=True)`
— the exit code is never inspected and the captured output is never logged.
Returns the result together with the rsync output lines written to the log. -/
def copyFromPvcFlat (srcExists srcIsDir : Bool) (_exitCode : Int)
    (_outLines : List String) : Except String Unit × List String :=
  if !srcExists || !srcIsDir then (.error "Invalid PVC path", [])
  else (.ok (), [])

/-- Kthena `PVCDownloader._copy_from_pvc`
(`src/python/kthena/downloader/pvc.py`): validates the source, streams every
rsync stdout line into the log, and raises `subprocess.SubprocessError` when
the exit code is non-zero. -/
def copyFromPvcKthena (srcExists srcIsDir : Bool) (exitCode : Int)
    (outLines : List String) : Except String Unit × List String :=
  if !srcExists then (.error "PVC path does not exist", [])
  else if !srcIsDir then (.error "PVC path is not a directory", [])
  else if exitCode ≠ 0 then (.error "rsync failed", outLines)
  else (.ok (), outLines)

/-! ## Theorems -/

/-- Evaluation lemma: with no I/O failures, `try_acquire` of a manager that is
not already holding reduces to the staleness test. -/
theorem tryAcquire_noFail_eq (st : LMState) (fs : LockFS) (now : Int)
    (pid : Nat) (h : st.is_locked = false) :
    tryAcquire st fs now pid noFail =
      if fs.lockExists && decide (now - fs.mtime < st.timeout) then
        ⟨false, false, st, { fs with dirExists := true }⟩
      else
        ⟨true, false,
          { st with
              lock_file_open := true
              is_locked := true
              stop_renew_event := false
              renew_thread := true },
          { fs with
              dirExists := true
              lockExists := true
              mtime := now
              content := toString pid ++ "\n" }⟩ := by
  unfold tryAcquire noFail
  simp only [h, Bool.and_false, Bool.false_eq_true, ite_false, if_false]

/-- C1: for a lock manager that does not already hold its lock, `try_acquire`
returns false when the lock file exists with a modification time within
`timeout` seconds of now (so a concurrently constructed manager B must fail
while holder A has acquired and not released — third conjunct), and returns
true — creating/overwriting the lock file, writing the holder's pid,
refreshing the modification time and setting the held flag — whenever the
lock file is absent or its modification time is more than `timeout` seconds
in the past. -/
theorem c1_tryAcquire_staleness (st : LMState) (fs : LockFS) (now : Int)
    (pid : Nat) (hfresh : st.is_locked = false) :
    (fs.lockExists = true → now - fs.mtime < st.timeout →
      (tryAcquire st fs now pid noFail).acquired = false)
    ∧ ((fs.lockExists = false ∨ st.timeout < now - fs.mtime) →
      (tryAcquire st fs now pid noFail).acquired = true
      ∧ (tryAcquire st fs now pid noFail).fs.lockExists = true
      ∧ (tryAcquire st fs now pid noFail).fs.content = toString pid ++ "\n"
      ∧ (tryAcquire st fs now pid noFail).fs.mtime = now
      ∧ (tryAcquire st fs now pid noFail).st.is_locked = true)
    ∧ (∀ (stB : LMState) (nowB : Int) (pidB : Nat),
        stB.is_locked = false →
        (tryAcquire st fs now pid noFail).acquired = true →
        nowB - now < stB.timeout →
        (tryAcquire stB (tryAcquire st fs now pid noFail).fs nowB pidB
          noFail).acquired = false)
:= by
  rw [tryAcquire_noFail_eq st fs now pid hfresh]
  by_cases hc : (fs.lockExists && decide (now - fs.mtime < st.timeout)) = true
  · rw [if_pos hc]
    refine ⟨fun _ _ => rfl, ?_, ?_⟩
    · rintro (habs | hlate)
      · rw [habs] at hc; simp at hc
      · simp only [Bool.and_eq_true, decide_eq_true_eq] at hc
        omega
    · intro stB nowB pidB hB hacq
      exact absurd hacq (by simp)
  · rw [if_neg hc]
    refine ⟨?_, fun _ => ⟨rfl, rfl, rfl, rfl, rfl⟩, ?_⟩
    · intro hex hlt
      exact absurd (by simp [hex, hlt]) hc
    · intro stB nowB pidB hB _ hlate
      rw [tryAcquire_noFail_eq stB _ nowB pidB hB]
      rw [if_pos (by simp [hlate])]

/-- Witness for C1 at concrete inputs: manager A acquires at time 1000 on an
empty filesystem; manager B, constructed while A holds, fails at time 1100
(timeout 600). -/
theorem c1_tryAcquire_staleness_witness :
    ((LockManager.init "/out/m/.m.lock").is_locked = false)
    ∧ (tryAcquire (LockManager.init "/out/m/.m.lock")
        ⟨false, false, 0, ""⟩ 1000 41 noFail).acquired = true
    ∧ (tryAcquire (LockManager.init "/out/m/.m.lock")
        (tryAcquire (LockManager.init "/out/m/.m.lock")
          ⟨false, false, 0, ""⟩ 1000 41 noFail).fs 1100 42 noFail).acquired
        = false := by
  refine ⟨rfl, ?_, ?_⟩
  · exact ((c1_tryAcquire_staleness (LockManager.init "/out/m/.m.lock")
      ⟨false, false, 0, ""⟩ 1000 41 rfl).2.1 (Or.inl rfl)).1
  · exact (c1_tryAcquire_staleness (LockManager.init "/out/m/.m.lock")
      ⟨false, false, 0, ""⟩ 1000 41 rfl).2.2
      (LockManager.init "/out/m/.m.lock") 1100 42 rfl
      (((c1_tryAcquire_staleness (LockManager.init "/out/m/.m.lock")
        ⟨false, false, 0, ""⟩ 1000 41 rfl).2.1 (Or.inl rfl)).1)
      (by decide)

/-- C2: for a manager that holds the lock (held flag set, file handle open),
`release` stops the renewal task first (the stop event is set, the thread
joined, and `stopRenew` is the first recorded action), then unlocks, closes
and removes the lock file — tolerating it already being gone; afterwards the
lock file does not exist, a fresh manager's `try_acquire` immediately
succeeds, and a second `release` is a no-op. -/
theorem c2_release_terminal (st : LMState) (fs : LockFS)
    (hheld : st.is_locked = true) (hfile : st.lock_file_open = true) :
    ((release st fs).1.is_locked = false)
    ∧ ((release st fs).1.lock_file_open = false)
    ∧ ((release st fs).1.stop_renew_event = true)
    ∧ ((release st fs).1.renew_thread = false)
    ∧ ((release st fs).2.1.lockExists = false)
    ∧ ((release st fs).2.2.head? = some RelAction.stopRenew)
    ∧ (release (release st fs).1 (release st fs).2.1
        = ((release st fs).1, (release st fs).2.1, []))
    ∧ (∀ (p : String) (t now : Int) (pidB : Nat),
        (tryAcquire (LockManager.init p t) (release st fs).2.1 now pidB
          noFail).acquired = true) := by
  have hrel : release st fs =
      (cleanup (stopRenewFn st),
        { fs with lockExists := false },
        if fs.lockExists then
          [RelAction.stopRenew, RelAction.unflock, RelAction.closeFile,
            RelAction.removeFile]
        else [RelAction.stopRenew, RelAction.unflock, RelAction.closeFile]) := by
    unfold release
    simp only [hheld, Bool.true_eq_false, ite_false]
    have hfile1 : (stopRenewFn st).lock_file_open = true := hfile
    simp only [hfile1, if_true]
    by_cases hex : fs.lockExists
    · simp [hex]
    · simp only [hex, Bool.false_eq_true, ite_false, if_false]
      refine congrArg _ ?_
      refine congrArg₂ _ ?_ rfl
      cases fs
      simp_all
  rw [hrel]
  refine ⟨rfl, rfl, rfl, rfl, rfl, ?_, ?_, ?_⟩
  · by_cases hex : fs.lockExists <;> simp [hex]
  · unfold release
    simp [cleanup]
  · intro p t now pidB
    unfold tryAcquire
    simp [LockManager.init, noFail]

/-- Witness for C2: release after a concrete successful acquisition; the lock
file is gone and a fresh manager reacquires at once. -/
theorem c2_release_terminal_witness :
    ((release
        { lock_path := "/out/m/.m.lock", timeout := 600, renew_interval := 300,
          stop_renew_event := false, lock_file_open := true, is_locked := true,
          renew_thread := true }
        ⟨true, true, 1000, "41\n"⟩).2.1.lockExists = false)
    ∧ (tryAcquire (LockManager.init "/out/m/.m.lock")
        (release
          { lock_path := "/out/m/.m.lock", timeout := 600, renew_interval := 300,
            stop_renew_event := false, lock_file_open := true, is_locked := true,
            renew_thread := true }
          ⟨true, true, 1000, "41\n"⟩).2.1 1001 42 noFail).acquired = true := by
  refine ⟨?_, ?_⟩
  · exact (c2_release_terminal
      { lock_path := "/out/m/.m.lock", timeout := 600, renew_interval := 300,
        stop_renew_event := false, lock_file_open := true, is_locked := true,
        renew_thread := true }
      ⟨true, true, 1000, "41\n"⟩ rfl rfl).2.2.2.2.1
  · exact (c2_release_terminal
      { lock_path := "/out/m/.m.lock", timeout := 600, renew_interval := 300,
        stop_renew_event := false, lock_file_open := true, is_locked := true,
        renew_thread := true }
      ⟨true, true, 1000, "41\n"⟩ rfl rfl).2.2.2.2.2.2.2 "/out/m/.m.lock" 600 1001 42

/-- C8: `try_acquire` never raises (it is a total function into `AcqResult`);
whenever an injected I/O failure is hit anywhere in the acquisition sequence
(`raised = true`), it returns false with partial state cleaned up (file
handle closed and cleared, held flag false); no failure is raised when no
I/O call fails; and a failure at the very first call (`os.makedirs`) of a
non-holding manager is always hit. -/
theorem c8_tryAcquire_io_failure (st : LMState) (fs : LockFS) (now : Int)
    (pid : Nat) (fails : AcqStep → Bool) :
    ((tryAcquire st fs now pid fails).raised = true →
      (tryAcquire st fs now pid fails).acquired = false
      ∧ (tryAcquire st fs now pid fails).st.lock_file_open = false
      ∧ (tryAcquire st fs now pid fails).st.is_locked = false)
    ∧ ((∀ s, fails s = false) → (tryAcquire st fs now pid fails).raised = false)
    ∧ (st.is_locked = false → fails AcqStep.makedirs = true →
        (tryAcquire st fs now pid fails).raised = true) := by
  refine ⟨?_, ?_, ?_⟩
  · by_cases hl : st.is_locked = true
    · simp [tryAcquire, hl]
    · by_cases h1 : fails AcqStep.makedirs = true
      · simp [tryAcquire, hl, h1, cleanup]
      · by_cases h2 : (fs.lockExists && fails AcqStep.getmtime) = true
        · simp [tryAcquire, hl, h1, h2, cleanup]
        · by_cases h3 : (fs.lockExists && decide (now - fs.mtime < st.timeout)) = true
          · simp [tryAcquire, hl, h1, h2, h3]
          · by_cases h4 : fails AcqStep.openFile = true
            · simp [tryAcquire, hl, h1, h2, h3, h4, cleanup]
            · by_cases h5 : fails AcqStep.chmod = true
              · simp [tryAcquire, hl, h1, h2, h3, h4, h5, cleanup]
              · by_cases h6 : fails AcqStep.flock = true
                · simp [tryAcquire, hl, h1, h2, h3, h4, h5, h6, cleanup]
                · by_cases h7 : fails AcqStep.writePid = true
                  · simp [tryAcquire, hl, h1, h2, h3, h4, h5, h6, h7, cleanup]
                  · by_cases h8 : fails AcqStep.utime = true
                    · simp [tryAcquire, hl, h1, h2, h3, h4, h5, h6, h7, h8, cleanup]
                    · simp [tryAcquire, hl, h1, h2, h3, h4, h5, h6, h7, h8]
  · intro hnf
    unfold tryAcquire
    simp only [hnf, Bool.and_false, Bool.false_eq_true, ite_false, if_false]
    split
    · rfl
    · split
      · rfl
      · rfl
  · intro hl h1
    unfold tryAcquire
    simp [hl, h1]

/-- Witness for C8: a failing `fcntl.flock` call on a concrete acquisition
attempt yields `False` with the handle cleared and the held flag down. -/
theorem c8_tryAcquire_io_failure_witness :
    (tryAcquire (LockManager.init "/out/m/.m.lock") ⟨false, false, 0, ""⟩ 100 7
      (fun s => s == AcqStep.flock)).acquired = false
    ∧ (tryAcquire (LockManager.init "/out/m/.m.lock") ⟨false, false, 0, ""⟩ 100 7
      (fun s => s == AcqStep.flock)).st.lock_file_open = false
    ∧ (tryAcquire (LockManager.init "/out/m/.m.lock") ⟨false, false, 0, ""⟩ 100 7
      (fun s => s == AcqStep.flock)).st.is_locked = false :=
  (c8_tryAcquire_io_failure (LockManager.init "/out/m/.m.lock")
    ⟨false, false, 0, ""⟩ 100 7 (fun s => s == AcqStep.flock)).1 (by decide)

/-- Evaluation lemma for the orchestration loop when the backend raises: with
the first successful acquisition at relative attempt `k`, the loop polls `k`
times (failed acquire, 60 s wait each) and then acquires, downloads, releases
and re-raises. -/
theorem downloadModelLoop_error_eq (acq : Nat → Bool) (e : String) :
    ∀ (k fuel i : Nat), (∀ j, j < k → acq (i + j) = false) →
    acq (i + k) = true → k < fuel →
    downloadModelLoop acq (.error e) fuel i =
      ((List.replicate k [DlEvent.acquireFailed, DlEvent.waited 60]).flatten
        ++ [DlEvent.acquired, DlEvent.downloadCalled, DlEvent.released,
            DlEvent.releaseNoop],
       some (Except.error e)) := by
  intro k
  induction k with
  | zero =>
    intro fuel i _ hk hfuel
    match fuel, hfuel with
    | fuel + 1, _ =>
      simp only [downloadModelLoop]
      rw [if_pos (by simpa using hk)]
      simp
  | succ k ih =>
    intro fuel i hbefore hk hfuel
    match fuel, hfuel with
    | fuel + 1, hfuel =>
      have h0 : acq i = false := by simpa using hbefore 0 (Nat.succ_pos k)
      simp only [downloadModelLoop]
      rw [if_neg (by simp [h0])]
      have hrest := ih fuel (i + 1)
        (fun j hj => by
          have := hbefore (j + 1) (Nat.succ_lt_succ hj)
          simpa [Nat.add_assoc, Nat.add_comm 1 j] using this)
        (by
          have : i + 1 + k = i + (k + 1) := by omega
          rw [this]; exact hk)
        (Nat.lt_of_succ_lt_succ hfuel)
      rw [hrest]
      simp [List.replicate_succ]

/-- In the `k` polling rounds preceding acquisition no lock-manager event
other than the failed acquire and the fixed 60-second wait occurs. -/
theorem count_poll_events (k : Nat) (ev : DlEvent)
    (h1 : ev ≠ DlEvent.acquireFailed) (h2 : ev ≠ DlEvent.waited 60) :
    (List.replicate k [DlEvent.acquireFailed, DlEvent.waited 60]).flatten.count ev
      = 0 := by
  induction k with
  | zero => simp
  | succ k ih =>
    simp only [List.replicate_succ, List.flatten_cons, List.count_append, ih]
    simp [List.count_cons, h1, h2]

/-- C3: when the backend's `download` raises after the lease was acquired,
the orchestration loop re-raises that same exception, with the lease released
(inner `finally`, then the outer handler's no-op second `release`) before the
exception propagates; the backend is invoked exactly once — only lease
acquisition is retried, each failed `try_acquire` followed by the fixed
60-second poll wait. -/
theorem c3_orchestrator_error_propagation (acq : Nat → Bool) (e : String)
    (k fuel : Nat) (hbefore : ∀ j, j < k → acq j = false) (hk : acq k = true)
    (hfuel : k < fuel) :
    downloadModel acq (.error e) fuel =
      ((List.replicate k [DlEvent.acquireFailed, DlEvent.waited 60]).flatten
        ++ [DlEvent.acquired, DlEvent.downloadCalled, DlEvent.released,
            DlEvent.releaseNoop],
       some (Except.error e))
    ∧ (downloadModel acq (.error e) fuel).1.count DlEvent.downloadCalled = 1
    ∧ (downloadModel acq (.error e) fuel).1.count DlEvent.acquired = 1
    ∧ (downloadModel acq (.error e) fuel).2 = some (Except.error e) := by
  have heq := downloadModelLoop_error_eq acq e k fuel 0
    (fun j hj => by simpa using hbefore j hj) (by simpa using hk) hfuel
  have heq' : downloadModel acq (.error e) fuel =
      ((List.replicate k [DlEvent.acquireFailed, DlEvent.waited 60]).flatten
        ++ [DlEvent.acquired, DlEvent.downloadCalled, DlEvent.released,
            DlEvent.releaseNoop],
       some (Except.error e)) := heq
  refine ⟨heq', ?_, ?_, ?_⟩
  · rw [heq']
    simp [List.count_append, count_poll_events]
  · rw [heq']
    simp [List.count_append, count_poll_events]
  · rw [heq']

/-- Witness for C3: two failed acquisitions, then success; the backend error
"boom" is re-raised and the trace is poll, poll, acquire, download, release,
no-op release. -/
theorem c3_orchestrator_error_propagation_witness :
    downloadModel (fun i => i == 2) (.error "boom") 5 =
      ([DlEvent.acquireFailed, DlEvent.waited 60, DlEvent.acquireFailed,
        DlEvent.waited 60, DlEvent.acquired, DlEvent.downloadCalled,
        DlEvent.released, DlEvent.releaseNoop],
       some (Except.error "boom")) := by
  have h := (c3_orchestrator_error_propagation (fun i => i == 2) "boom" 2 5
    (by decide) (by decide) (by decide)).1
  simpa using h

/-- C6 counterexample: the renewal interval is the constant 300 while the
timeout is a constructor argument; for the 15-second timeout that the
matrixinfer revision's orchestrator actually passes
(`LockManager(lock_path, timeout=15)`), the renewal interval is *not*
smaller than the staleness timeout. -/
theorem c6_renewal_ratio_counterexample :
    ¬ ((LockManager.init "/models/.lock" matrixinferLockTimeout).renew_interval
      < (LockManager.init "/models/.lock" matrixinferLockTimeout).timeout) := by
  decide

/-- C6 amended: the renewal interval of every constructed `LockManager` is the
constant 300 seconds, which is strictly smaller than the staleness timeout
exactly when the timeout exceeds 300; for the default and for the flat
orchestrator's timeout of 600 the ratio is exactly 1:2, but not every
caller-passed timeout satisfies the invariant (the matrixinfer orchestrator
passes 15). -/
theorem c6_renewal_interval_amended (p : String) (t : Int) :
    (LockManager.init p t).renew_interval = 300
    ∧ ((LockManager.init p t).renew_interval < (LockManager.init p t).timeout
        ↔ 300 < t)
    ∧ (LockManager.init p downloaderLockTimeout).timeout
        = 2 * (LockManager.init p downloaderLockTimeout).renew_interval
    ∧ (LockManager.init p downloaderLockTimeout).renew_interval
        < (LockManager.init p downloaderLockTimeout).timeout := by
  refine ⟨rfl, Iff.rfl, by norm_num [LockManager.init, downloaderLockTimeout],
    by norm_num [LockManager.init, downloaderLockTimeout]⟩

/-- Witness for C6's amended statement at a concrete timeout above 300. -/
theorem c6_renewal_interval_amended_witness :
    (LockManager.init "/models/.lock" 400).renew_interval
      < (LockManager.init "/models/.lock" 400).timeout :=
  (c6_renewal_interval_amended "/models/.lock" 400).2.1.mpr (by norm_num)

/-- C5 (evaluation of the resolver at the failing inputs): only the bare
model-hub dispatch behaves as the claim states.  `s3://bucket/path` does not
yield an object-store variant at all: `get_downloader` passes `region_name=`
to an `S3Downloader.__init__` that has no such parameter, so the resolution
raises `TypeError` (uncaught — only `ImportError` is handled), even though
`parse_bucket_from_model_url` itself would have derived bucket `bucket` and
prefix `path`.  `pvc://data/models` is resolved to the shared-volume variant
rooted at the fixed mount point `/mnt/pvc` — the URI's path is discarded,
because `get_downloader` constructs `PVCDownloader()` without the source and
the flat `_parse_pvc_path` returns `normpath(self.pvc_mount_point)`.  The
kthena revision's parser (whose behavior the repo's own tests pin) yields
`/data/models`. -/
theorem c5_resolver_pvc_divergence :
    getDownloader "s3://bucket/path" ⟨none, none, none, none, none, none, none⟩
      = Except.error "TypeError: unexpected keyword argument region_name"
    ∧ parseBucketFromModelUrl "s3://bucket/path" = ("bucket", "path")
    ∧ getDownloader "pvc://data/models" ⟨none, none, none, none, none, none, none⟩
      = Except.ok (Variant.pvcDl "/mnt/pvc")
    ∧ flatParsePvcPath "/mnt/pvc" = "/mnt/pvc"
    ∧ "/mnt/pvc" ≠ "/data/models"
    ∧ kthenaParsePvcPath "pvc://data/models" = Except.ok "/data/models"
    ∧ getDownloader "facebook/opt-125m" ⟨none, none, none, none, none, none, none⟩
      = Except.ok (Variant.hfDl "facebook/opt-125m" none none none) := by
  refine ⟨rfl, by decide, rfl, by decide, by decide, rfl, rfl⟩

/-- C9 (evaluation of both revisions at the failing input): on an rsync exit
status of 1 with the source present, the flat revision returns normally and
logs none of the tool's output, while the kthena revision (the behavior the
repo's test `test_copy_from_pvc_failure` pins) raises and has streamed the
progress lines into the log; on exit status 0 the kthena revision returns
normally, progress streamed. -/
theorem c9_pvc_copy_exit_status :
    copyFromPvcFlat true true 1 ["sending model.bin"] = (Except.ok (), [])
    ∧ copyFromPvcKthena true true 1 ["sending model.bin"]
        = (Except.error "rsync failed", ["sending model.bin"])
    ∧ copyFromPvcKthena true true 0 ["sending model.bin"]
        = (Except.ok (), ["sending model.bin"]) :=
  ⟨rfl, rfl, rfl⟩

/-- C4 counterexample: a storage-client `ClientError` during listing is *not*
surfaced — the job completes normally with no actions; a `ClientError` during
an individual object download likewise leaves the job completing normally,
the object merely recorded as failed. -/
theorem c4_client_error_not_fatal_counterexample :
    s3Download (some "ak") (some "sk") "s3://bucket/models" "/out"
      (.error (.clientError "AccessDenied" "denied")) (fun _ => none)
      (fun _ => .ok ()) = Except.ok []
    ∧ s3Download (some "ak") (some "sk") "s3://bucket/models" "/out"
      (.ok [⟨"models/weights.bin", 10, "\"e1\""⟩]) (fun _ => none)
      (fun _ => .error (.clientError "RequestTimeout" "timed out"))
      = Except.ok [("/out/weights.bin", ObjAction.clientFailed)] :=
  ⟨rfl, rfl⟩

/-- C4 amended: a storage-client `ClientError` raised during object listing
or during an individual object download is caught and logged and the
variant's download completes normally (the failed object is simply not
transferred); only a non-`ClientError` exception is fatal to the job and
propagates to the caller unchanged. -/
theorem c4_client_error_swallowed_amended (ak sk : String)
    (hak : ak ≠ "") (hsk : sk ≠ "") (uri outDir : String)
    (loc : String → Option LocalFile) (fetch : String → Except S3Err Unit) :
    (∀ code msg, s3Download (some ak) (some sk) uri outDir
        (.error (.clientError code msg)) loc fetch = Except.ok [])
    ∧ (∀ msg, s3Download (some ak) (some sk) uri outDir
        (.error (.other msg)) loc fetch = Except.error msg)
    ∧ (∀ (obj : S3Object) (code msg : String),
        strEndsWithSlash obj.key = false →
        loc (objTarget outDir (parseBucketFromModelUrl uri).2 obj.key) = none →
        fetch obj.key = .error (.clientError code msg) →
        s3Download (some ak) (some sk) uri outDir (.ok [obj]) loc fetch
          = Except.ok [(objTarget outDir (parseBucketFromModelUrl uri).2 obj.key,
              ObjAction.clientFailed)])
    ∧ (∀ (obj : S3Object) (msg : String),
        strEndsWithSlash obj.key = false →
        loc (objTarget outDir (parseBucketFromModelUrl uri).2 obj.key) = none →
        fetch obj.key = .error (.other msg) →
        s3Download (some ak) (some sk) uri outDir (.ok [obj]) loc fetch
          = Except.error msg) := by
  have hcred : (credFalsy (some ak) || credFalsy (some sk)) = false := by
    simp [credFalsy, hak, hsk]
  refine ⟨?_, ?_, ?_, ?_⟩
  · intro code msg
    simp [s3Download, hcred]
  · intro msg
    simp [s3Download, hcred]
  · intro obj code msg hend hloc hfetch
    simp [s3Download, hcred, s3DownloadLoop, hend, hloc, hfetch, downloadObject,
      downloadObject.downloadObjectFetch]
  · intro obj msg hend hloc hfetch
    simp [s3Download, hcred, s3DownloadLoop, hend, hloc, hfetch, downloadObject,
      downloadObject.downloadObjectFetch]

/-- Witness for C4's amended statement: a non-`ClientError` exception during
listing propagates unchanged. -/
theorem c4_client_error_swallowed_amended_witness :
    s3Download (some "ak") (some "sk") "s3://bucket/models" "/out"
      (.error (.other "socket closed")) (fun _ => none) (fun _ => .ok ())
      = Except.error "socket closed" :=
  (c4_client_error_swallowed_amended "ak" "sk" (by decide) (by decide)
    "s3://bucket/models" "/out" (fun _ => none) (fun _ => .ok ())).2.1
    "socket closed"

/-- A non-empty run of digits followed by a quote satisfies the digit
scanner. -/
theorem digitsQuote_append (d r : List Char) (hne : d ≠ [])
    (hdig : ∀ c ∈ d, c.isDigit = true) :
    digitsQuote (d ++ '\"' :: r) = true := by
  induction d with
  | nil => exact absurd rfl hne
  | cons c rest ih =>
    have hc : c.isDigit = true := hdig c (by simp)
    cases rest with
    | nil => simp [digitsQuote, hc]
    | cons c2 rest2 =>
      have hc2 : c2.isDigit = true := hdig c2 (by simp)
      have hq : ¬ (c2 = '\"') := by
        intro h; rw [h] at hc2; exact absurd hc2 (by decide)
      have ih' := ih (by simp) (fun x hx => hdig x (List.mem_cons_of_mem c hx))
      simpa [digitsQuote, hc, hq] using ih'

/-- Placing the separator after any run of non-quote characters succeeds when
digits and a closing quote follow. -/
theorem sCont_append (s d r : List Char) (hs : ∀ c ∈ s, c ≠ '\"')
    (hd : d ≠ []) (hdig : ∀ c ∈ d, c.isDigit = true) :
    sCont (s ++ '-' :: (d ++ '\"' :: r)) = true := by
  induction s with
  | nil =>
    simp [sCont, digitsQuote_append d r hd hdig]
  | cons c s' ih =>
    have hcq : ¬ (c = '\"') := hs c (by simp)
    have ih' := ih (fun x hx => hs x (by simp [hx]))
    by_cases hmid : (decide (c = '-') && digitsQuote (s' ++ '-' :: (d ++ '\"' :: r))) = true
    · simp [sCont, hcq, hmid]
    · simp only [List.cons_append, sCont]
      rw [if_neg hcq, if_neg (by simpa using hmid)]
      exact ih'

/-- The fetch tail of `_download_object` never reports a skip. -/
theorem downloadObjectFetch_ne_skipped (fetch : Except S3Err Unit) :
    downloadObject.downloadObjectFetch fetch ≠ Except.ok ObjAction.skipped := by
  cases fetch with
  | ok u => simp [downloadObject.downloadObjectFetch]
  | error e =>
    cases e <;> simp [downloadObject.downloadObjectFetch]

/-- C10: every quoted multipart-form ETag `"<group>-<digits>"` (the group
non-empty and quote-free, covering every hex digest; the digit run
non-empty) makes `_is_etag_match` return true regardless of the local MD5;
consequently `_download_object` skips such an object as already present
exactly when the sizes agree, with the local content playing no part. -/
theorem c10_multipart_etag_no_content_check (localMd5 : String)
    (s d : List Char) (hs : s ≠ []) (hsq : ∀ c ∈ s, c ≠ '\"')
    (hd : d ≠ []) (hdig : ∀ c ∈ d, c.isDigit = true) :
    isEtagMatch localMd5 (String.mk ('\"' :: (s ++ '-' :: (d ++ ['\"'])))) = true
    ∧ (∀ (f : LocalFile) (size : Nat) (fetch : Except S3Err Unit),
        downloadObject (some f) size
            (String.mk ('\"' :: (s ++ '-' :: (d ++ ['\"'])))) fetch
          = Except.ok ObjAction.skipped
        ↔ f.size = size) := by
  have hmp : isMultipartEtag (String.mk ('\"' :: (s ++ '-' :: (d ++ ['\"'])))) = true := by
    cases s with
    | nil => exact absurd rfl hs
    | cons c s' =>
      have hcq : ¬ (c = '\"') := hsq c (by simp)
      have := sCont_append s' d [] (fun x hx => hsq x (by simp [hx])) hd hdig
      simpa [isMultipartEtag, hcq, List.append_assoc] using this
  have hdash : (String.mk ('\"' :: (s ++ '-' :: (d ++ ['\"'])))).toList.contains '-' = true := by
    simp [String.toList]
  have hmatch : ∀ m : String,
      isEtagMatch m (String.mk ('\"' :: (s ++ '-' :: (d ++ ['\"'])))) = true := by
    intro m
    simp [isEtagMatch, hdash, hmp]
  refine ⟨hmatch localMd5, ?_⟩
  intro f size fetch
  constructor
  · intro hres
    by_cases hsz : f.size = size
    · exact hsz
    · exfalso
      have : downloadObject (some f) size
          (String.mk ('\"' :: (s ++ '-' :: (d ++ ['\"'])))) fetch
          = downloadObject.downloadObjectFetch fetch := by
        simp [downloadObject, hsz]
      rw [this] at hres
      exact downloadObjectFetch_ne_skipped fetch hres
  · intro hsz
    simp [downloadObject, hsz, hmatch f.md5]

/-- Witness for C10: a multipart ETag of three parts is "matched" by a local
MD5 that cannot equal it, and the object is skipped on a size match alone. -/
theorem c10_multipart_etag_no_content_check_witness :
    isEtagMatch "\"00000000\"" "\"abc123-3\"" = true
    ∧ downloadObject (some ⟨7, "\"00000000\""⟩) 7 "\"abc123-3\"" (.ok ())
        = Except.ok ObjAction.skipped := by
  have h := c10_multipart_etag_no_content_check "\"00000000\""
    ['a', 'b', 'c', '1', '2', '3'] ['3'] (by decide) (by decide) (by decide)
    (by decide)
  exact ⟨h.1, (h.2 ⟨7, "\"00000000\""⟩ 7 (.ok ())).mpr rfl⟩

/-- The spec's "already present" check for one object: a local file exists at
the target whose size equals the object's size and whose content checksum
matches the object's ETag under `_is_etag_match`. -/
def alreadyPresent (f? : Option LocalFile) (size : Nat) (etag : String) : Bool :=
  match f? with
  | some f => f.size = size && isEtagMatch f.md5 etag
  | none => false

/-- C7: an object is skipped exactly when a local file exists at the target
path with equal size and an ETag-matching content checksum (first three
conjuncts, for a fetch that would succeed); and over a whole listing with all
transfers succeeding, each non-directory object is mapped to its relative
target path under the destination and is skipped or downloaded according to
that same check. -/
theorem c7_skip_iff_present (loc : Option LocalFile) (size : Nat)
    (etag : String) :
    (downloadObject loc size etag (.ok ())
      = Except.ok (if alreadyPresent loc size etag then ObjAction.skipped
          else ObjAction.downloaded))
    ∧ (∀ fetch, downloadObject loc size etag fetch = Except.ok ObjAction.skipped
        ↔ alreadyPresent loc size etag = true)
    ∧ (alreadyPresent loc size etag = true
        ↔ ∃ f, loc = some f ∧ f.size = size ∧ isEtagMatch f.md5 etag = true)
    ∧ (∀ (outputDir pfx : String) (locF : String → Option LocalFile)
        (fetchF : String → Except S3Err Unit) (objs : List S3Object),
        (∀ k, fetchF k = .ok ()) →
        s3DownloadLoop outputDir pfx locF fetchF objs =
          Except.ok (objs.filterMap (fun o =>
            if strEndsWithSlash o.key then none
            else some (objTarget outputDir pfx o.key,
              if alreadyPresent (locF (objTarget outputDir pfx o.key)) o.size
                  o.etag
              then ObjAction.skipped else ObjAction.downloaded)))) := by
  refine ⟨?_, ?_, ?_, ?_⟩
  · cases loc with
    | none => simp [downloadObject, alreadyPresent, downloadObject.downloadObjectFetch]
    | some f =>
      by_cases hc : (decide (f.size = size) && isEtagMatch f.md5 etag) = true
      · simp [downloadObject, alreadyPresent, hc]
      · simp [downloadObject, alreadyPresent, hc,
          downloadObject.downloadObjectFetch]
  · intro fetch
    cases loc with
    | none =>
      simp only [downloadObject, alreadyPresent]
      constructor
      · intro h; exact absurd h (downloadObjectFetch_ne_skipped fetch)
      · intro h; exact absurd h (by simp)
    | some f =>
      by_cases hc : (decide (f.size = size) && isEtagMatch f.md5 etag) = true
      · simp [downloadObject, alreadyPresent, hc]
      · simp only [downloadObject, alreadyPresent, hc]
        rw [if_neg (by simpa using hc)]
        constructor
        · intro h; exact absurd h (downloadObjectFetch_ne_skipped fetch)
        · intro h; exact absurd h (by simpa using hc)
  · cases loc with
    | none => simp [alreadyPresent]
    | some f => simp [alreadyPresent]
  · intro outputDir pfx locF fetchF objs hok
    induction objs with
    | nil => simp [s3DownloadLoop]
    | cons o rest ih =>
      by_cases hend : strEndsWithSlash o.key = true
      · simpa [s3DownloadLoop, hend] using ih
      · have hend' : strEndsWithSlash o.key = false := by
          simpa using hend
        by_cases hp : alreadyPresent (locF (objTarget outputDir pfx o.key))
            o.size o.etag = true
        · obtain ⟨f, hf⟩ : ∃ f, locF (objTarget outputDir pfx o.key) = some f := by
            cases h : locF (objTarget outputDir pfx o.key) with
            | none => rw [h] at hp; simp [alreadyPresent] at hp
            | some f => exact ⟨f, rfl⟩
          have hskip : downloadObject (locF (objTarget outputDir pfx o.key))
              o.size o.etag (fetchF o.key) = Except.ok ObjAction.skipped := by
            rw [hf]
            rw [hf] at hp
            simp only [alreadyPresent] at hp
            simp [downloadObject, hp]
          simp [s3DownloadLoop, hend', hskip, ih, hp]
        · have hdl : downloadObject (locF (objTarget outputDir pfx o.key))
              o.size o.etag (fetchF o.key) = Except.ok ObjAction.downloaded := by
            cases hf : locF (objTarget outputDir pfx o.key) with
            | none =>
              simp [downloadObject, hok o.key,
                downloadObject.downloadObjectFetch]
            | some f =>
              rw [hf] at hp
              simp only [alreadyPresent] at hp
              simp [downloadObject, hp, hok o.key,
                downloadObject.downloadObjectFetch]
          simp [s3DownloadLoop, hend', hdl, ih, hp]

/-- Witness for C7's skip-iff-present reading: an object whose local copy
matches in size and checksum is skipped; after changing the remote ETag the
same object is re-downloaded, while a size mismatch also forces a
download. -/
theorem c7_skip_iff_present_witness :
    downloadObject (some ⟨10, "\"aa\""⟩) 10 "\"aa\"" (.ok ())
      = Except.ok ObjAction.skipped
    ∧ downloadObject (some ⟨10, "\"aa\""⟩) 10 "\"bb\"" (.ok ())
      = Except.ok ObjAction.downloaded
    ∧ downloadObject (some ⟨9, "\"aa\""⟩) 10 "\"aa\"" (.ok ())
      = Except.ok ObjAction.downloaded
    ∧ s3DownloadLoop "/out" "models"
        (fun p => if p = "/out/a.bin" then some ⟨10, "\"aa\""⟩ else none)
        (fun _ => .ok ())
        [⟨"models/a.bin", 10, "\"aa\""⟩, ⟨"models/b.bin", 4, "\"cc\""⟩]
      = Except.ok [("/out/a.bin", ObjAction.skipped),
          ("/out/b.bin", ObjAction.downloaded)] := by
  have h1 := (c7_skip_iff_present (some ⟨10, "\"aa\""⟩) 10 "\"aa\"").1
  have h2 := (c7_skip_iff_present (some ⟨10, "\"aa\""⟩) 10 "\"bb\"").1
  have h3 := (c7_skip_iff_present (some ⟨9, "\"aa\""⟩) 10 "\"aa\"").1
  have h4 := (c7_skip_iff_present (some ⟨10, "\"aa\""⟩) 10 "\"aa\"").2.2.2
    "/out" "models"
    (fun p => if p = "/out/a.bin" then some ⟨10, "\"aa\""⟩ else none)
    (fun _ => .ok ())
    [⟨"models/a.bin", 10, "\"aa\""⟩, ⟨"models/b.bin", 4, "\"cc\""⟩]
    (fun _ => rfl)
  refine ⟨?_, ?_, ?_, ?_⟩
  · rw [h1]; rfl
  · rw [h2]; rfl
  · rw [h3]; rfl
  · rw [h4]; rfl

end Kthena
